import Mathlib

set_option autoImplicit false

/-!
Shallow embedding of two source files of the `serve` repository:

* `examples/model_service_template/model_handler.py` — the base
  `ModelHandler` class: lifecycle, the three overridable pipeline stages
  and the orchestration entry point `handle` with its timing metrics and
  uniform error containment.

* `model-archiver/model_archiver/manifest_components/model.py` — the
  manifest `Model` value object and its `json.dumps` serialization.

Python exceptions are modelled with `Except String` (the string is the
stringified exception, `str(e)`); Python `None` and dynamically typed
values with `PyVal`; the wall-clock readings of `time.time()` are passed
in as explicit rational timestamps; the effects on the context (calls to
the metrics sink and to the status reporter) are returned as explicit
event lists.
-/

/-- A dynamically typed Python value, as far as the handler pipeline
needs one: `None`, strings and lists. -/
inductive PyVal where
  | none
  | str (s : String)
  | list (xs : List PyVal)

/-- Python `len`: defined on lists and strings, raises `TypeError`
on `None`. -/
def pyLen : PyVal → Except String Nat
  | .none => .error ("TypeError: object of type NoneType has no len()")
  | .str s => .ok s.length
  | .list xs => .ok xs.length

/-- Per-instance state of `ModelHandler` as set up by `__init__`
(`error = None`, `_batch_size = 0`, `initialized = False`; the
`_context` attribute is observed by nothing and is omitted). -/
structure ModelHandler where
  error : Option String
  batch_size : Int
  initialized : Bool

/-- `ModelHandler()` — a freshly constructed handler. -/
def ModelHandler.new : ModelHandler := ⟨Option.none, 0, false⟩

/-- The slice of the model-server context read by the lifecycle:
`context.system_properties`, a configuration mapping. -/
structure Context where
  system_properties : List (String × Int)

/-- Python dict lookup `d[k]` on the configuration mapping: `some`
value, or `none` meaning a `KeyError` is raised. -/
def lookupKey : List (String × Int) → String → Option Int
  | [], _ => Option.none
  | (k, v) :: rest, key => if k = key then some v else lookupKey rest key

/-- `ModelHandler.initialize(self, context)`: reads
`context.system_properties["batch_size"]` into `self._batch_size` and
sets `self.initialized = True`. A missing `batch_size` key raises
`KeyError` (the spec's ConfigurationError), returned here as the second
component; the assignments after the raise never execute, so in that
case the handler state comes back unchanged. -/
def ModelHandler.initialize (h : ModelHandler) (ctx : Context) :
    ModelHandler × Option String :=
  match lookupKey ctx.system_properties ("batch_size") with
  | some n => ({ h with batch_size := n, initialized := true }, Option.none)
  | Option.none => (h, some ("KeyError: batch_size"))

/-- `ModelHandler.preprocess(self, batch)`: asserts
`self._batch_size == len(batch)` (raising `AssertionError` with the
formatted message otherwise — the spec's InvalidBatchSizeError) and
returns `None`. -/
def ModelHandler.preprocess (h : ModelHandler) (batch : PyVal) :
    Except String PyVal :=
  match pyLen batch with
  | .error e => .error e
  | .ok n =>
    if h.batch_size = (n : Int) then .ok .none
    else .error ("Invalid input batch size: " ++ toString n)

/-- `ModelHandler.inference(self, model_input)`: base behavior,
returns `None`. -/
def ModelHandler.inference (_h : ModelHandler) (_model_input : PyVal) :
    Except String PyVal :=
  .ok .none

/-- `ModelHandler.postprocess(self, inference_output)`: base behavior,
returns `["OK"] * self._batch_size`. -/
def ModelHandler.postprocess (h : ModelHandler) (_inference_output : PyVal) :
    Except String PyVal :=
  .ok (.list (List.replicate h.batch_size.toNat (.str ("OK"))))

/-- The three overridable pipeline stages. A concrete handler may
override any of them; `defaultStages` is the base-class behavior. Each
stage receives the handler state (`self`) and the previous stage's
output, and either returns a value or raises. -/
structure Stages where
  preprocess : ModelHandler → PyVal → Except String PyVal
  inference : ModelHandler → PyVal → Except String PyVal
  postprocess : ModelHandler → PyVal → Except String PyVal

/-- The base-class (non-overridden) stages. -/
def defaultStages : Stages :=
  ⟨ModelHandler.preprocess, ModelHandler.inference, ModelHandler.postprocess⟩

/-- The guarded stage sequence inside `handle`:
`data = preprocess(data); data = inference(data); data = postprocess(data)`,
stopping at the first raised exception. -/
def pipeline (st : Stages) (h : ModelHandler) (data : PyVal) :
    Except String PyVal :=
  match st.preprocess h data with
  | .error e => .error e
  | .ok d1 =>
    match st.inference h d1 with
    | .error e => .error e
    | .ok d2 => st.postprocess h d2

/-- Python 3 `round` to the nearest integer: round half to even. -/
def roundHalfEven (x : ℚ) : ℤ :=
  if x - ⌊x⌋ < 1 / 2 then ⌊x⌋
  else if x - ⌊x⌋ > 1 / 2 then ⌊x⌋ + 1
  else if ⌊x⌋ % 2 = 0 then ⌊x⌋ else ⌊x⌋ + 1

/-- Python `round(x, 2)` applied to the stage durations. The source
rounds a float; the binary representation of floats is outside this
model, and the claims rely only on the sign and the count of the
recorded values, which rounding to two decimals preserves either way. -/
def round2 (x : ℚ) : ℚ := (roundHalfEven (x * 100) : ℚ) / 100

/-- The observable outcome of one `handle` call: the returned value, the
`metrics.add_time` calls made on the context's metrics sink (in order),
the `report_status` calls made on the context's request processor, and
the handler state afterwards. -/
structure HandleOutput where
  result : PyVal
  metrics : List (String × ℚ)
  statuses : List (Int × String)
  state : ModelHandler

/-- `ModelHandler.handle(self, data, context)`. `t0 t1 t2 t3` are the
four `time.time()` readings taken around the stages. On success the
three stage durations are recorded in milliseconds rounded to two
decimals under `PreprocessTime`, `InferenceTime`, `PostprocessTime`, and
the postprocess result is returned. If any stage raises, the error is
logged (logging is not modelled), `report_status(500, "Unknown inference
error")` is called once, and `[str(e)] * self._batch_size` is returned.
`self.error` is reset to `None` at the start either way. -/
def ModelHandler.handle (st : Stages) (h : ModelHandler) (data : PyVal)
    (t0 t1 t2 t3 : ℚ) : HandleOutput :=
  let h1 := { h with error := Option.none }
  match pipeline st h1 data with
  | .ok d =>
    ⟨d,
     [("PreprocessTime", round2 ((t1 - t0) * 1000)),
      ("InferenceTime", round2 ((t2 - t1) * 1000)),
      ("PostprocessTime", round2 ((t3 - t2) * 1000))],
     [], h1⟩
  | .error e =>
    ⟨.list (List.replicate h1.batch_size.toNat (.str e)),
     [], [(500, "Unknown inference error")], h1⟩

/-- The JSON values the manifest `Model` serializes. -/
inductive JVal where
  | null
  | bool (b : Bool)
  | str (s : String)
  | int (n : Int)
  | obj (kvs : List (String × JVal))

/-- One lower-case hexadecimal digit. -/
def hexDigit (n : Nat) : Char :=
  if n < 10 then Char.ofNat (48 + n) else Char.ofNat (87 + n)

/-- Four lower-case hexadecimal digits, as in a `\uXXXX` escape. -/
def hex4 (n : Nat) : String :=
  String.mk [hexDigit (n / 4096 % 16), hexDigit (n / 256 % 16),
             hexDigit (n / 16 % 16), hexDigit (n % 16)]

/-- `json.dumps` escaping of one character (`ensure_ascii=True`; code
points beyond the basic multilingual plane are outside the model). -/
def escapeChar (c : Char) : String :=
  if c = '\\' then "\\\\"
  else if c = '\"' then "\\\""
  else if c = '\n' then "\\n"
  else if c = '\t' then "\\t"
  else if c = '\r' then "\\r"
  else if c.toNat = 8 then "\\b"
  else if c.toNat = 12 then "\\f"
  else if c.toNat < 32 ∨ 126 < c.toNat then "\\u" ++ hex4 c.toNat
  else String.singleton c

/-- `json.dumps` rendering of a string. -/
def encodeString (s : String) : String :=
  "\"" ++ String.join (s.toList.map escapeChar) ++ "\""

mutual

/-- `json.dumps(v)` with the default separators: `", "` between object
members and `": "` after each key. -/
def JVal.dumps : JVal → String
  | .null => "null"
  | .bool true => "true"
  | .bool false => "false"
  | .str s => encodeString s
  | .int n => toString n
  | .obj kvs => "\x7b" ++ dumpsMembers kvs ++ "\x7d"

/-- The comma-separated members of a JSON object. -/
def dumpsMembers : List (String × JVal) → String
  | [] => ""
  | [(k, v)] => encodeString k ++ ": " ++ JVal.dumps v
  | (k, v) :: rest => encodeString k ++ ": " ++ JVal.dumps v ++ ", " ++ dumpsMembers rest

end

/-- The manifest `Model` object. Python attribute values are `JVal`s
with Python `None` embedded as `JVal.null`; `model_dict` is the
projection computed once by `__init__` via `__to_dict__` and cached. -/
structure Model where
  model_name : JVal
  description : JVal
  model_version : JVal
  extensions : JVal
  handler : JVal
  model_dict : List (String × JVal)

/-- `Model.__to_dict__(self)`: the required keys unconditionally, then
each optional key only when the attribute `is not None`, in insertion
order modelName, handler, description, modelVersion, extensions. -/
def modelToDict (model_name handler description model_version extensions : JVal) :
    List (String × JVal) :=
  [("modelName", model_name), ("handler", handler)]
    ++ (match description with | .null => [] | d => [("description", d)])
    ++ (match model_version with | .null => [] | v => [("modelVersion", v)])
    ++ (match extensions with | .null => [] | e => [("extensions", e)])

/-- `Model.__init__(self, model_name, handler, description=None,
model_version=None, extensions=None)`: stores the attributes and eagerly
caches `self.model_dict = self.__to_dict__()`. -/
def Model.init (model_name handler description model_version extensions : JVal) :
    Model :=
  { model_name := model_name, description := description,
    model_version := model_version, extensions := extensions,
    handler := handler,
    model_dict := modelToDict model_name handler description model_version extensions }

/-- `Model.__str__(self)`: `json.dumps(self.model_dict)` — reads only
the cached projection. -/
def Model.str (m : Model) : String := JVal.dumps (.obj m.model_dict)

/-- `Model.__repr__(self)`: `json.dumps(self.model_dict)`. -/
def Model.repr (m : Model) : String := JVal.dumps (.obj m.model_dict)

/-- Any pair found in one of the optional-field branches of
`__to_dict__` carries the fixed key, the attribute itself as value, and
only exists when the attribute is not `None`. -/
theorem optBranch_mem (key : String) (x : JVal) (p : String × JVal)
    (hp : p ∈ (match x with | JVal.null => ([] : List (String × JVal)) | d => [(key, d)])) :
    p.1 = key ∧ p.2 = x ∧ x ≠ JVal.null := by
  cases x <;> simp_all

/-- C3, counterexample: `Model("m1", "h.py")` does NOT serialize to the
compact text without spaces — `json.dumps` uses the default separators
`", "` and `": "`. -/
theorem model_serialization_compact_text_refuted :
    Model.str (Model.init (.str ("m1")) (.str ("h.py")) .null .null .null)
      ≠ "\x7b\"modelName\":\"m1\",\"handler\":\"h.py\"\x7d" := by
  decide

/-- C3 (amended): serialization emits keys in the fixed order modelName,
handler, description, modelVersion, extensions, omitting absent optional
fields entirely and never emitting null for an optional field; the
minimal example `Model("m1", "h.py")` serializes to exactly
`\x7b"modelName": "m1", "handler": "h.py"\x7d` — with the default
`json.dumps` separators, i.e. a space after each colon and comma. -/
theorem model_serialization_key_order :
    (∀ mn hd d v e,
      ((Model.init mn hd d v e).model_dict.map Prod.fst)
        = ["modelName", "handler"]
            ++ (match d with | JVal.null => [] | _ => ["description"])
            ++ (match v with | JVal.null => [] | _ => ["modelVersion"])
            ++ (match e with | JVal.null => [] | _ => ["extensions"]))
    ∧ (∀ mn hd d v e p, p ∈ (Model.init mn hd d v e).model_dict →
        (p.1 = "description" ∨ p.1 = "modelVersion" ∨ p.1 = "extensions") →
        p.2 ≠ JVal.null)
    ∧ Model.str (Model.init (.str ("m1")) (.str ("h.py")) .null .null .null)
        = "\x7b\"modelName\": \"m1\", \"handler\": \"h.py\"\x7d" := by
  refine ⟨?_, ?_, by rfl⟩
  · intro mn hd d v e
    cases d <;> cases v <;> cases e <;> rfl
  · intro mn hd d v e p hp hkey
    replace hp : p ∈ modelToDict mn hd d v e := hp
    unfold modelToDict at hp
    rw [List.mem_append, List.mem_append, List.mem_append] at hp
    rcases hp with ((hp | hp) | hp) | hp
    · simp only [List.mem_cons, List.not_mem_nil, or_false] at hp
      rcases hp with hp | hp <;>
        rcases hkey with hk | hk | hk <;> rw [hp] at hk <;> simp at hk
    · have h1 := optBranch_mem _ _ _ hp
      rw [h1.2.1]
      exact h1.2.2
    · have h1 := optBranch_mem _ _ _ hp
      rw [h1.2.1]
      exact h1.2.2
    · have h1 := optBranch_mem _ _ _ hp
      rw [h1.2.1]
      exact h1.2.2

/-- C7: every serialization reads only the cached `model_dict`
projection computed at construction, so any two models with the same
cached projection — in particular the same instance serialized twice,
or an instance whose other attributes were mutated after construction —
produce byte-identical output, and `__repr__` agrees with `__str__`. -/
theorem model_str_pure_function_of_cache (m₁ m₂ : Model)
    (h : m₁.model_dict = m₂.model_dict) :
    Model.str m₁ = Model.str m₂ ∧ Model.repr m₁ = Model.str m₁ := by
  constructor
  · unfold Model.str
    rw [h]
  · rfl

/-- Witness for C7 at a concrete input: mutating `description` after
construction does not change the serialization, which still renders the
cached projection. -/
theorem model_str_pure_function_of_cache_witness :
    Model.str (Model.init (.str ("m1")) (.str ("h.py")) .null .null .null)
      = Model.str { Model.init (.str ("m1")) (.str ("h.py")) .null .null .null with
          description := JVal.str ("changed") } :=
  (model_str_pure_function_of_cache _ _ rfl).1

/-- C9: the required keys modelName and handler are emitted
unconditionally — passing `None` for them still yields the key with a
`null` value — while optional fields passed as `None` are omitted;
no validation rejects a `None` required field. -/
theorem model_required_keys_unconditional :
    (∀ mn hd, (Model.init mn hd JVal.null JVal.null JVal.null).model_dict
        = [("modelName", mn), ("handler", hd)])
    ∧ Model.str (Model.init JVal.null JVal.null JVal.null JVal.null JVal.null)
        = "\x7b\"modelName\": null, \"handler\": null\x7d"
    ∧ (∀ mn hd d v e,
        ("modelName", mn) ∈ (Model.init mn hd d v e).model_dict
        ∧ ("handler", hd) ∈ (Model.init mn hd d v e).model_dict) := by
  refine ⟨fun mn hd => rfl, by rfl, ?_⟩
  intro mn hd d v e
  constructor <;> simp [Model.init, modelToDict]

/-- Rounding to the nearest integer preserves nonnegativity. -/
theorem roundHalfEven_nonneg (x : ℚ) (hx : 0 ≤ x) : 0 ≤ roundHalfEven x := by
  have hf : (0 : ℤ) ≤ ⌊x⌋ := Int.le_floor.mpr (by exact_mod_cast hx)
  unfold roundHalfEven
  split
  · exact hf
  · split
    · omega
    · split
      · exact hf
      · omega

/-- Rounding to two decimal places preserves nonnegativity. -/
theorem round2_nonneg (x : ℚ) (hx : 0 ≤ x) : 0 ≤ round2 x := by
  unfold round2
  apply div_nonneg _ (by norm_num)
  exact_mod_cast roundHalfEven_nonneg _ (mul_nonneg hx (by norm_num))

/-- C4: `initialize` on a context whose configuration mapping lacks the
`batch_size` entry raises (the ConfigurationError propagates to the
caller), the handler state is unchanged, and in particular a fresh
handler's `initialized` flag remains false. -/
theorem initialize_missing_key_propagates (h : ModelHandler) (ctx : Context)
    (hmiss : lookupKey ctx.system_properties ("batch_size") = Option.none) :
    (∃ e, ModelHandler.initialize h ctx = (h, some e))
    ∧ ( ModelHandler.initialize h ctx).1.initialized = h.initialized
    ∧ ( ModelHandler.initialize ModelHandler.new ctx).1.initialized = false := by
  unfold ModelHandler.initialize
  rw [hmiss]
  exact ⟨⟨_, rfl⟩, rfl, rfl⟩

/-- Witness for C4 at a concrete context missing `batch_size`. -/
theorem initialize_missing_key_propagates_witness :
    ( ModelHandler.initialize ModelHandler.new ⟨[("model_dir", 1)]⟩).1.initialized
      = false :=
  (initialize_missing_key_propagates ModelHandler.new ⟨[("model_dir", 1)]⟩ rfl).2.2

/-- C5: on a handler whose stored batch size is `N`, `preprocess` raises
the InvalidBatchSizeError assertion for a batch whose length differs
from `N`, and succeeds (returning `None`) for a batch of length exactly
`N`. -/
theorem preprocess_batch_size_check (h : ModelHandler) (N : ℕ)
    (hb : h.batch_size = (N : ℤ)) (batch : List PyVal) :
    (batch.length ≠ N → ∃ e, ModelHandler.preprocess h (.list batch) = .error e)
    ∧ (batch.length = N → ModelHandler.preprocess h (.list batch) = .ok .none) := by
  constructor
  · intro hne
    have hc : ¬ (h.batch_size = ((batch.length : ℕ) : ℤ)) := by
      rw [hb]
      intro hEq
      exact hne (by exact_mod_cast hEq.symm)
    exact ⟨("Invalid input batch size: " ++ toString batch.length),
      by simp only [ModelHandler.preprocess, pyLen, if_neg hc]⟩
  · intro heq
    have hc : h.batch_size = ((batch.length : ℕ) : ℤ) := by rw [hb, heq]
    simp only [ModelHandler.preprocess, pyLen, if_pos hc]

/-- Witness for C5 at batch size 2 and a batch of length 2. -/
theorem preprocess_batch_size_check_witness :
    ModelHandler.preprocess ⟨Option.none, 2, true⟩ (.list [.str ("a"), .str ("b")])
      = .ok .none :=
  (preprocess_batch_size_check ⟨Option.none, 2, true⟩ 2 rfl
    [.str ("a"), .str ("b")]).2 rfl

/-- C1: if any stage raises during `handle` on a handler whose stored
batch size is `N`, the returned value is a list of length `N` whose
every element is the stringified exception, and `report_status` is
called exactly once, with code 500 and message "Unknown inference
error". -/
theorem handle_stage_failure_uniform (st : Stages) (h : ModelHandler)
    (data : PyVal) (t0 t1 t2 t3 : ℚ) (N : ℕ) (hb : h.batch_size = (N : ℤ))
    (e : String)
    (hfail : pipeline st { h with error := Option.none } data = .error e) :
    ∃ res, ( ModelHandler.handle st h data t0 t1 t2 t3).result = .list res
      ∧ res.length = N
      ∧ (∀ x ∈ res, x = PyVal.str e)
      ∧ ( ModelHandler.handle st h data t0 t1 t2 t3).statuses
          = [(500, "Unknown inference error")] := by
  refine ⟨List.replicate N (.str e), ?_, by simp, ?_, ?_⟩
  · simp only [ModelHandler.handle, hfail]
    rw [show ({ h with error := Option.none } : ModelHandler).batch_size = (N : ℤ)
      from hb]
    rw [Int.toNat_natCast]
  · intro x hx
    exact List.eq_of_mem_replicate hx
  · simp only [ModelHandler.handle, hfail]

/-- Witness for C1: `inference` overridden to raise "boom" on a handler
with batch size 2. -/
theorem handle_stage_failure_uniform_witness :
    ( ModelHandler.handle
        ⟨ModelHandler.preprocess, fun _ _ => .error ("boom"), ModelHandler.postprocess⟩
        ⟨Option.none, 2, true⟩ (.list [.str ("a"), .str ("b")]) 0 0 0 0).statuses
      = [(500, "Unknown inference error")] := by
  obtain ⟨res, h1, h2, h3, h4⟩ := handle_stage_failure_uniform
    ⟨ModelHandler.preprocess, fun _ _ => .error ("boom"), ModelHandler.postprocess⟩
    ⟨Option.none, 2, true⟩ (.list [.str ("a"), .str ("b")]) 0 0 0 0 2 rfl ("boom") rfl
  exact h4

/-- C2: on a handler with stored batch size 4, `handle` with the
base-class stages on any 4-element batch returns four copies of "OK"
and records exactly the three timing metrics `PreprocessTime`,
`InferenceTime`, `PostprocessTime`, each nonnegative, given that the
four wall-clock readings are nondecreasing. -/
theorem handle_default_batch4 (h : ModelHandler) (batch : List PyVal)
    (t0 t1 t2 t3 : ℚ) (hb : h.batch_size = 4) (hlen : batch.length = 4)
    (h01 : t0 ≤ t1) (h12 : t1 ≤ t2) (h23 : t2 ≤ t3) :
    ( ModelHandler.handle defaultStages h (.list batch) t0 t1 t2 t3).result
        = .list (List.replicate 4 (.str ("OK")))
    ∧ ( ModelHandler.handle defaultStages h (.list batch) t0 t1 t2 t3).metrics.map
        Prod.fst = ["PreprocessTime", "InferenceTime", "PostprocessTime"]
    ∧ (∀ p ∈ ( ModelHandler.handle defaultStages h (.list batch) t0 t1 t2 t3).metrics,
        0 ≤ p.2) := by
  have hc : ({ h with error := Option.none } : ModelHandler).batch_size
      = ((batch.length : ℕ) : ℤ) := by
    show h.batch_size = _
    rw [hb, hlen]
    rfl
  have hpipe : pipeline defaultStages { h with error := Option.none } (.list batch)
      = .ok (.list (List.replicate 4 (.str ("OK")))) := by
    simp only [pipeline, defaultStages, ModelHandler.preprocess, pyLen, if_pos hc,
      ModelHandler.inference, ModelHandler.postprocess]
    rw [show ({ h with error := Option.none } : ModelHandler).batch_size = (4 : ℤ)
      from hb]
    rfl
  refine ⟨?_, ?_, ?_⟩
  · simp only [ModelHandler.handle, hpipe]
  · simp only [ModelHandler.handle, hpipe]
    rfl
  · simp only [ModelHandler.handle, hpipe]
    intro p hp
    simp only [List.mem_cons, List.not_mem_nil, or_false] at hp
    rcases hp with hp | hp | hp <;> rw [hp] <;>
      exact round2_nonneg _ (mul_nonneg (sub_nonneg.mpr (by assumption)) (by norm_num))

/-- Witness for C2 at a concrete handler, batch and clock readings. -/
theorem handle_default_batch4_witness :
    ( ModelHandler.handle defaultStages ⟨Option.none, 4, true⟩
        (.list [.str ("a"), .str ("b"), .str ("c"), .str ("d")]) 0 1 2 3).result
      = .list (List.replicate 4 (.str ("OK"))) :=
  (handle_default_batch4 ⟨Option.none, 4, true⟩
    [.str ("a"), .str ("b"), .str ("c"), .str ("d")] 0 1 2 3 rfl rfl
    (by norm_num) (by norm_num) (by norm_num)).1

/-- With the base-class stages, a successful pipeline run always
returns `["OK"] * batch_size`, whatever the input was. -/
theorem pipeline_default_ok (h : ModelHandler) (data : PyVal) (d : PyVal)
    (hp : pipeline defaultStages h data = .ok d) :
    d = .list (List.replicate h.batch_size.toNat (.str ("OK"))) := by
  simp only [pipeline, defaultStages] at hp
  cases hpre : ModelHandler.preprocess h data with
  | error e =>
    rw [hpre] at hp
    cases hp
  | ok d1 =>
    rw [hpre] at hp
    simp only [ModelHandler.inference, ModelHandler.postprocess] at hp
    cases hp
    rfl

/-- C6: every `handle` call on a handler with stored batch size `N` and
the base-class stages returns a list of exactly `N` slots, uniformly
filled: either every slot is the placeholder "OK" or every slot is one
and the same stringified error — never a partial-success mixture. -/
theorem handle_default_always_batch_sized (h : ModelHandler) (N : ℕ)
    (hb : h.batch_size = (N : ℤ)) (data : PyVal) (t0 t1 t2 t3 : ℚ) :
    ∃ res, ( ModelHandler.handle defaultStages h data t0 t1 t2 t3).result = .list res
      ∧ res.length = N
      ∧ ((∀ x ∈ res, x = PyVal.str ("OK")) ∨ ∃ e, ∀ x ∈ res, x = PyVal.str e) := by
  have hbn : ({ h with error := Option.none } : ModelHandler).batch_size.toNat = N := by
    show h.batch_size.toNat = N
    rw [hb]
    exact Int.toNat_natCast N
  cases hp : pipeline defaultStages { h with error := Option.none } data with
  | ok d =>
    have hd := pipeline_default_ok _ _ _ hp
    refine ⟨List.replicate N (.str ("OK")), ?_, by simp, Or.inl ?_⟩
    · simp only [ModelHandler.handle, hp, hd, hbn]
    · intro x hx
      exact List.eq_of_mem_replicate hx
  | error e =>
    refine ⟨List.replicate N (.str e), ?_, by simp, Or.inr ⟨e, ?_⟩⟩
    · simp only [ModelHandler.handle, hp, hbn]
    · intro x hx
      exact List.eq_of_mem_replicate hx

/-- Witness for C6 at batch size 3 with an input (`None`) on which the
default pipeline raises, exercising the uniform-error branch. -/
theorem handle_default_always_batch_sized_witness :
    ∃ res, ( ModelHandler.handle defaultStages ⟨Option.none, 3, true⟩ PyVal.none
        0 0 0 0).result = .list res
      ∧ res.length = 3
      ∧ ((∀ x ∈ res, x = PyVal.str ("OK")) ∨ ∃ e, ∀ x ∈ res, x = PyVal.str e) :=
  handle_default_always_batch_sized ⟨Option.none, 3, true⟩ 3 rfl PyVal.none 0 0 0 0

/-- C8: the stored batch size is written exactly once, by `initialize`
(a fresh handler holds 0, a successful `initialize` stores the
configured value), and `handle` — hence the stage calls it makes, which
return no state at all — leaves it unchanged. -/
theorem batch_size_write_once :
    (∀ (st : Stages) (h : ModelHandler) (data : PyVal) (t0 t1 t2 t3 : ℚ),
      ( ModelHandler.handle st h data t0 t1 t2 t3).state.batch_size = h.batch_size)
    ∧ ModelHandler.new.batch_size = 0
    ∧ (∀ (h : ModelHandler) (ctx : Context) (n : ℤ),
        lookupKey ctx.system_properties ("batch_size") = some n →
        ( ModelHandler.initialize h ctx).1.batch_size = n) := by
  refine ⟨?_, rfl, ?_⟩
  · intro st h data t0 t1 t2 t3
    simp only [ModelHandler.handle]
    cases hp : pipeline st { h with error := Option.none } data
    · rfl
    · rfl
  · intro h ctx n hn
    unfold ModelHandler.initialize
    rw [hn]

/-- Witness for C8: a successful `initialize` against a configuration
with `batch_size = 4` stores 4. -/
theorem batch_size_write_once_witness :
    ( ModelHandler.initialize ModelHandler.new ⟨[("batch_size", 4)]⟩).1.batch_size
      = 4 :=
  batch_size_write_once.2.2 ModelHandler.new ⟨[("batch_size", 4)]⟩ 4 rfl

/-- C10: `handle` on a never-initialized handler (stored batch size
still 0) with the base-class stages and a non-empty batch takes the
error path — the batch-size assertion fails — and hands the caller the
empty list: zero responses for a non-empty batch, with the one failure
status still reported. -/
theorem handle_uninitialized_empty_response (batch : List PyVal) (t0 t1 t2 t3 : ℚ)
    (hne : batch ≠ []) :
    ( ModelHandler.handle defaultStages ModelHandler.new (.list batch) t0 t1 t2 t3).result
        = .list []
    ∧ ( ModelHandler.handle defaultStages ModelHandler.new (.list batch) t0 t1 t2 t3).statuses
        = [(500, "Unknown inference error")] := by
  have hlp : 0 < batch.length := List.length_pos.mpr hne
  have hc : ¬ (({ ModelHandler.new with error := Option.none } : ModelHandler).batch_size
      = ((batch.length : ℕ) : ℤ)) := by
    show ¬ ((0 : ℤ) = _)
    intro hEq
    have h0 : batch.length = 0 := by exact_mod_cast hEq.symm
    omega
  have hpipe : pipeline defaultStages { ModelHandler.new with error := Option.none }
      (.list batch) = .error ("Invalid input batch size: " ++ toString batch.length) := by
    simp only [pipeline, defaultStages, ModelHandler.preprocess, pyLen, if_neg hc]
  refine ⟨?_, ?_⟩
  · simp only [ModelHandler.handle, hpipe]
    rfl
  · simp only [ModelHandler.handle, hpipe]

/-- Witness for C10 at a concrete one-element batch. -/
theorem handle_uninitialized_empty_response_witness :
    ( ModelHandler.handle defaultStages ModelHandler.new (.list [.str ("r")])
        0 0 0 0).result = .list [] :=
  (handle_uninitialized_empty_response [.str ("r")] 0 0 0 0 (by simp)).1
